import Mathlib

/-!
Verification development for the `inmobilia-graph` conversational real-estate
agent.  The Python sources (`src/agent/guardrails.py`, `src/agent/tools.py`,
`src/agent/models.py`, `src/agent/state.py`) are shallowly embedded below:

* the mutable `InmobiliaState` dict becomes the structure `AgentState`;
* each guardrail gate becomes a pure function `AgentState → classifier reply →
  GateResult`, where the classifier reply parameter models the external LLM
  call (`none` models a raised exception or output that fails to parse into
  the gate's pydantic schema, `some o` a successfully parsed output);
* the regular expressions compiled by the source are modelled by executable
  matchers over `List Char`.  Every regex used by the source is an alternation
  of literals (with small character classes such as `[oó]`, expanded to a
  finite list of literal alternatives), possibly chained with `.*` / `.+` gaps
  or `\b` word boundaries; the matchers below implement exactly the Python
  `re.search` / `re.match` semantics on those shapes.  Python's `$` matches at
  the end of the string or just before one final newline; `.` does not match
  a newline; `re.IGNORECASE` case folding is modelled for the ASCII letters
  and the accented letters that occur in the patterns.  Python's `\w`/`\d`
  are Unicode classes; they are modelled here on the ASCII range plus the
  accented letters used in the sources, which is faithful on every input
  appearing in this development.
* the CRM collaborator (`external_api.crm_api`) and the property-catalog
  database are modelled as explicit reply parameters (`Except`), and the CRM
  calls a tool attempts are returned explicitly so that theorems can speak
  about the payloads sent.
-/

namespace Inmobilia

/-! ### Case folding and literal matching (model of Python `re` primitives) -/

/-- Model of the case folding performed by `re.IGNORECASE`, restricted to the
ASCII letters plus the accented letters that occur in the source's patterns
(`á é í ó ú ñ`). -/
def pyLower (c : Char) : Char :=
  if c = 'Á' then 'á'
  else if c = 'É' then 'é'
  else if c = 'Í' then 'í'
  else if c = 'Ó' then 'ó'
  else if c = 'Ú' then 'ú'
  else if c = 'Ñ' then 'ñ'
  else c.toLower

/-- The character sequence of a string, case folded. -/
def lowerList (s : String) : List Char := s.toList.map pyLower

/-- The test `listHasInfix pat cs` holds iff `pat` occurs as a contiguous block
inside `cs`. -/
def listHasInfix (pat : List Char) : List Char → Bool
  | [] => pat.isEmpty
  | c :: cs => pat.isPrefixOf (c :: cs) || listHasInfix pat cs

/-- Model of `re.search` for a case-insensitive literal: the literal occurs
somewhere in the string. -/
def ciContainsLit (s : String) (lit : String) : Bool :=
  listHasInfix (lowerList lit) (lowerList s)

/-- Model of `re.search` for a case-insensitive alternation of literals, e.g.
`(?i)(casa|departamento|...)`. -/
def ciContainsAny (s : String) (lits : List String) : Bool :=
  lits.any (ciContainsLit s)

/-- A literal alternative stored head/tail so that it is nonempty by
construction (every literal in the source's patterns is nonempty). -/
abbrev Lit := Char × List Char

def litOf (s : String) : Lit :=
  match s.toList.map pyLower with
  | [] => ('?', [])
  | c :: cs => (c, cs)

def litChars (l : Lit) : List Char := l.1 :: l.2

/-- One step of matching an alternation-with-gaps pattern such as
`(?i)(ignore|olvida|desatiende).*(instrucciones|previas|anteriores)`:
`seqGap gs cs` holds iff the groups `gs` occur in order inside `cs`,
each group matching one of its literal alternatives, with arbitrary
characters between (and before) them.  It is applied per line, which
models the fact that neither `.*` nor the literals can cross `'\n'`. -/
def seqGapFuel : Nat → List (List Lit) → List Char → Bool
  | _, [], _ => true
  | 0, _ :: _, _ => false
  | fuel + 1, g :: rest, cs =>
      match cs with
      | [] => false
      | _ :: cs2 =>
          (g.any fun a => (litChars a).isPrefixOf cs && seqGapFuel fuel rest (cs2.drop a.2.length))
          || seqGapFuel fuel (g :: rest) cs2

/-- Search entry point `seqGap gs cs`.  Since every literal is nonempty, each
recursive call of `seqGapFuel` shortens the character list by at least one, so
`cs.length` is enough fuel for a complete search. -/
def seqGap (gs : List (List Lit)) (cs : List Char) : Bool :=
  seqGapFuel cs.length gs cs

/-- Split a character list on `'\n'` (model of the lines a `.`-containing
pattern may match within). -/
def splitLines (cs : List Char) : List (List Char) :=
  match cs with
  | [] => [[]]
  | '\n' :: rest => [] :: splitLines rest
  | c :: rest =>
      match splitLines rest with
      | [] => [[c]]
      | l :: ls => (c :: l) :: ls

/-- Model of `re.search` (with `re.IGNORECASE`) for a chain of literal
alternation groups separated by `.*` gaps. -/
def ciSearchSeq (s : String) (groups : List (List String)) : Bool :=
  let gs := groups.map (·.map litOf)
  (splitLines (lowerList s)).any (seqGap gs)

/-! ### The source's pattern sets -/

/-- The property-type / district / feature / metric / action patterns checked
first by `relevance_check` (guardrails.py lines 129-140), each regex expanded
to its list of literal alternatives. -/
def inmobiliarioPatterns : List (List String) :=
  [ ["casa", "departamento", "depa", "dpto", "terreno", "inmueble", "propiedad", "local", "oficina"],
    ["miraflores", "san isidro", "la molina", "surco", "barranco", "lince", "san miguel",
     "jesus maria", "magdalena", "pueblo libre", "san borja", "surquillo"],
    ["habitacion", "habitación", "bano", "baño", "cocina", "sala", "terraza", "jardin", "jardín",
     "dorm", "cuarto"],
    ["m2", "metros cuadrados", "precio", "dolar", "sol", "soles"],
    ["alquiler", "compra", "venta", "hipoteca", "credito", "crédito", "financiamiento"] ]

/-- The regexes `(?i)(ecuaci[oó]n|...)`, `(?i)(pol[ií]tica|...)`, `(?i)(f[uú]tbol|...)`:
the off-topic blocklist of `relevance_check` (guardrails.py lines 152-156). -/
def offTopicPatterns : List (List String) :=
  [ ["ecuacion", "ecuación", "matematica", "matemática", "formula", "fórmula", "algebra",
     "álgebra", "geometria", "geometría"],
    ["politica", "política", "presidente", "gobierno", "eleccion", "elección"],
    ["futbol", "fútbol", "tenis", "baloncesto", "mundial"] ]

def matchesAnyDomain (s : String) : Bool :=
  inmobiliarioPatterns.any (ciContainsAny s)

def matchesAnyOffTopic (s : String) : Bool :=
  offTopicPatterns.any (ciContainsAny s)

/-- The greeting alternatives of `^(hola|buenos? d[ií]as|buenas? tardes|buenas? noches)( .*)?$`. -/
def greetingAlts : List String :=
  ["hola", "buenos dias", "buenos días", "bueno dias", "bueno días",
   "buenas tardes", "buena tardes", "buenas noches", "buena noches"]

/-- Model of Python's `str.strip()` (whitespace restricted to the ASCII
whitespace characters). -/
def isPyWhitespace (c : Char) : Bool :=
  c = ' ' || c = '\t' || c = '\n' || c = '\r' || c = '\x0b' || c = '\x0c'

def pyStrip (cs : List Char) : List Char :=
  ((cs.dropWhile isPyWhitespace).reverse.dropWhile isPyWhitespace).reverse

/-- Model of `re.match(r'^(hola|buenos? d[ií]as|buenas? tardes|buenas? noches)( .*)?$',
last_msg.strip(), re.IGNORECASE)` (guardrails.py line 148).  After `.strip()`
the string has no leading/trailing whitespace, so `$` can only match at the
very end, and the optional `( .*)?` group forbids an embedded newline. -/
def matchesGreeting (s : String) : Bool :=
  let t := pyStrip (lowerList s)
  greetingAlts.any fun a =>
    let al := lowerList a
    t = al || ((al ++ [' ']).isPrefixOf t && !((t.drop (al.length + 1)).contains '\n'))

/-- The `"consentimiento"` pattern set of `get_compiled_patterns`
(guardrails.py lines 38-42); the first regex `(?i)(acepto|autorizo|consiento|s[iíÍ])`
notably matches the substring `si` anywhere. -/
def consentPatterns : List (List String) :=
  [ ["acepto", "autorizo", "consiento", "si", "sí"],
    ["confirmo", "estoy de acuerdo", "procede"],
    ["doy mi consentimiento", "pueden usar", "pueden utilizar"] ]

def matchesConsentPat1 (s : String) : Bool :=
  ciContainsAny s ["acepto", "autorizo", "consiento", "si", "sí"]

def matchesAnyConsent (s : String) : Bool :=
  consentPatterns.any (ciContainsAny s)

/-- The `"peligroso"` pattern set of `get_compiled_patterns` (guardrails.py
lines 31-36): each regex is a chain of literal alternation groups separated by
`.*` gaps. -/
def peligrosoPatterns : List (List (List String)) :=
  [ [["ignore", "olvida", "desatiende"], ["instrucciones", "previas", "anteriores"]],
    [["actuar como"], ["diferente", "otro", "modo", "prompt"]],
    [["system", "prompt"], ["role", "instruction"]],
    [["mostrar", "revelar"], ["instruccion", "prompt"]],
    [["actuar como si"], ["no tuvieras", "sin"], ["limitaciones", "restricciones"]] ]

def matchesAnyPeligroso (s : String) : Bool :=
  peligrosoPatterns.any (ciSearchSeq s)

/-! ### PII patterns (`get_pii_patterns`, guardrails.py lines 46-56)

These regexes are compiled *without* `re.IGNORECASE`.  `\w` is modelled as
ASCII alphanumerics, `'_'` and the accented letters used in the sources. -/

def isWordChar (c : Char) : Bool :=
  c.isAlphanum || c = '_' ||
    ['á', 'é', 'í', 'ó', 'ú', 'ñ', 'Á', 'É', 'Í', 'Ó', 'Ú', 'Ñ'].contains c

/-- The `[\w.-]` class of the email pattern. -/
def emailCls (c : Char) : Bool := isWordChar c || c = '.' || c = '-'

/-- After an `'@'`, `[\w.-]+\.\w+` can match iff the maximal `[\w.-]` run that
follows contains, at index ≥ 1, a `'.'` immediately followed by a `\w`
character. -/
def emailAfterAt (cs : List Char) : Bool :=
  let r := cs.takeWhile emailCls
  ((r.drop 1).zip (r.drop 2)).any fun p => p.1 = '.' && isWordChar p.2

/-- Model of `re.search(r'[\w.-]+@[\w.-]+\.\w+', s)`: an `'@'` preceded by at
least one `[\w.-]` character and followed by `[\w.-]+\.\w+`. -/
def emailSearch (prev : Option Char) (cs : List Char) : Bool :=
  match cs with
  | [] => false
  | c :: rest =>
      (c = '@' && (match prev with | some p => emailCls p | none => false) && emailAfterAt rest)
      || emailSearch (some c) rest

/-- Model of `re.search(r'(\+51)?\d{9,11}', s)`: since the `(\+51)?` prefix is
optional, a match exists iff the string contains 9 consecutive digits. -/
def telSearch (cs : List Char) : Bool :=
  match cs with
  | [] => false
  | _ :: rest => ((cs.take 9).all Char.isDigit && decide (9 ≤ cs.length)) || telSearch rest

/-- Model of `re.search(r'\b\d{8}\b', s)`: 8 consecutive digits delimited by
non-word characters (or the ends of the string). -/
def dniSearch (prev : Option Char) (cs : List Char) : Bool :=
  match cs with
  | [] => false
  | c :: rest =>
      ((match prev with | some p => !isWordChar p | none => true)
        && (cs.take 8).all Char.isDigit && decide (8 ≤ cs.length)
        && (match cs.drop 8 with | [] => true | d :: _ => !isWordChar d))
      || dniSearch (some c) rest

/-- Model of `re.search(r'(calle|avenida|av|jr|jirón|urb).+\d+', s)`: one of
the street keywords, then at least one (non-newline) character, then a digit,
all within one line. -/
def dirAlts : List Lit :=
  [litOf "calle", litOf "avenida", litOf "av", litOf "jr", litOf "jirón", litOf "urb"]

def dirSearchLine (cs : List Char) : Bool :=
  match cs with
  | [] => false
  | _ :: rest =>
      (dirAlts.any fun a =>
        (litChars a).isPrefixOf cs && ((rest.drop a.2.length).drop 1).any Char.isDigit)
      || dirSearchLine rest

def dirSearch (s : String) : Bool := (splitLines s.toList).any dirSearchLine

/-- The `[a-z]` run length (used by the full-name pattern; the classes `[A-Z]`,
`[a-z]` are ASCII-literal even under Python's Unicode defaults). -/
def asciiLowerRun (cs : List Char) : Nat := (cs.takeWhile fun c => c.isLower).length

def endBoundary (cs : List Char) : Bool :=
  match cs with
  | [] => true
  | c :: _ => !isWordChar c

/-- The pattern `[A-Z][a-z]+ [A-Z][a-z]+` anchored at the head of `cs` and followed by a
`\b`.  The trailing optional third word of the source pattern is redundant for
match existence: if a third word follows, the border after the second word is
a space, which already satisfies `\b`. -/
def nameAt (cs : List Char) : Bool :=
  match cs with
  | [] => false
  | u1 :: r1 =>
      u1.isUpper &&
      (let k1 := asciiLowerRun r1
       decide (1 ≤ k1) &&
       (match r1.drop k1 with
        | ' ' :: u2 :: r2 =>
            u2.isUpper &&
            (let k2 := asciiLowerRun r2
             decide (1 ≤ k2) && endBoundary (r2.drop k2))
        | _ => false))

/-- Model of `re.search(r'\b[A-Z][a-z]+ [A-Z][a-z]+( [A-Z][a-z]+)?\b', s)`. -/
def nameSearch (prev : Option Char) (cs : List Char) : Bool :=
  match cs with
  | [] => false
  | c :: rest =>
      ((match prev with | some p => !isWordChar p | none => true) && nameAt cs)
      || nameSearch (some c) rest

/-- The PII detector loop of `pii_check` (guardrails.py lines 342-347):
returns the detected type names in the (insertion-ordered) iteration order of
the `get_pii_patterns` dict. -/
def detectedPiiTypes (s : String) : List String :=
  (if emailSearch none s.toList then ["email"] else []) ++
  (if telSearch s.toList then ["teléfono"] else []) ++
  (if dniSearch none s.toList then ["DNI"] else []) ++
  (if dirSearch s then ["dirección"] else []) ++
  (if nameSearch none s.toList then ["nombre completo"] else [])

/-! ### Conversation state and classifier outputs -/

/-- One entry of the `messages` list; only `content` is read by the gates
(via `messages[-1].get("content", "")`). -/
structure Msg where
  role : String
  content : String
deriving DecidableEq

/-- One entry of `guardrail_cache["events"]`, appended by
`update_guardrail_cache` (the `info`/`time` payload is not modelled; no claim
mentions it). -/
structure GuardEvent where
  agent : String
  triggered : Bool
deriving DecidableEq

structure GCache where
  events : List GuardEvent
  awaiting_personal_data : Bool
deriving DecidableEq

/-- Shallow embedding of `InmobiliaState` (state.py): only the fields the
claims touch are carried; `user_data` is the string-valued dict modelled as an
insertion-ordered association list. -/
structure AgentState where
  messages : List Msg
  consent_obtained : Bool
  user_data : List (String × String)
  guardrail_cache : GCache
  properties_shown : Bool
  interaction_count : Int
deriving DecidableEq

/-- Model of `dict.get(k)` on `user_data`. -/
def udGet (ud : List (String × String)) (k : String) : Option String :=
  (ud.find? fun p => p.1 = k).map (·.2)

/-- Model of `ud[k] = v` on `user_data` (overwrite in place, else append). -/
def udSet (ud : List (String × String)) (k v : String) : List (String × String) :=
  if ud.any fun p => p.1 = k then
    ud.map fun p => if p.1 = k then (k, v) else p
  else ud ++ [(k, v)]

/-- Python truthiness of an optional string (`None` and `""` are falsy). -/
def truthy (o : Option String) : Bool :=
  match o with
  | none => false
  | some s => s ≠ ""

/-- Embedding of `update_guardrail_cache` (guardrails.py lines 59-75). -/
def pushEvent (s : AgentState) (agent : String) (triggered : Bool) : AgentState :=
  { s with guardrail_cache :=
      { s.guardrail_cache with
          events := s.guardrail_cache.events ++ [⟨agent, triggered⟩] } }

/-- Embedding of `RelevanceOutput` (models.py): the gate's typed classifier schema. -/
structure RelevanceOutput where
  is_relevant : Bool
  reasoning : String
deriving DecidableEq

/-- Embedding of `SecurityCheckOutput` (models.py); optional fields not read by the gate
are omitted. -/
structure SecurityCheckOutput where
  is_safe : Bool
  reasoning : String
deriving DecidableEq

/-- Embedding of `ConsentVerificationOutput` (models.py). -/
structure ConsentVerificationOutput where
  consent_obtained : Bool
  reasoning : String
deriving DecidableEq

/-- Embedding of `PIIDetectionOutput` (models.py); optional fields not read by the gate are
omitted. -/
structure PIIDetectionOutput where
  contains_pii : Bool
  detected_pii_types : List String
  reasoning : String
deriving DecidableEq

/-- What a gate evaluation produces: the returned update dict
(`guardrail_triggered` / `reason`), the state as mutated in place, and
whether `model.invoke` was reached (used to express "the classifier is not
invoked"). -/
structure GateResult where
  triggered : Bool
  reason : Option String
  state : AgentState
  classifierInvoked : Bool
deriving DecidableEq

/-! ### The four gates (guardrails.py)

Each gate takes the classifier reply as a parameter: `none` models the
`model.invoke` call raising, or its output failing `json.loads` / pydantic
parsing (both are swallowed by the source's `except` blocks); `some o` models
a successfully parsed output `o`. -/

/-- Embedding of `relevance_check` (guardrails.py lines 119-213). -/
def relevance_check (s : AgentState) (cl : Option RelevanceOutput) : GateResult :=
  match s.messages.getLast? with
  | none => ⟨false, none, s, false⟩
  | some m =>
      if matchesAnyDomain m.content then ⟨false, none, s, false⟩
      else if matchesGreeting m.content then ⟨false, none, s, false⟩
      else if matchesAnyOffTopic m.content then
        ⟨true, some "Tu consulta no está relacionada con bienes raíces.", s, false⟩
      else
        match cl with
        | none => ⟨false, none, s, true⟩
        | some out =>
            if !out.is_relevant then
              ⟨true, some "Tu consulta no parece estar relacionada con bienes raíces.", s, true⟩
            else ⟨false, none, s, true⟩

/-- Embedding of `security_check` (guardrails.py lines 215-267). -/
def security_check (s : AgentState) (cl : Option SecurityCheckOutput) : GateResult :=
  match s.messages.getLast? with
  | none => ⟨false, none, s, false⟩
  | some m =>
      if matchesAnyPeligroso m.content then
        ⟨true, some "El mensaje contiene patrones de manipulación potencial.", s, false⟩
      else
        match cl with
        | none => ⟨false, none, s, true⟩
        | some out =>
            let s2 := pushEvent s "security_check" (!out.is_safe)
            if !out.is_safe then
              ⟨true, some "El mensaje representa un potencial riesgo de seguridad.", s2, true⟩
            else ⟨false, none, s2, true⟩

/-- Embedding of `consent_check` (guardrails.py lines 270-324): never triggers; may set
`consent_obtained`. -/
def consent_check (s : AgentState) (cl : Option ConsentVerificationOutput) : GateResult :=
  if s.consent_obtained then ⟨false, none, s, false⟩
  else
    match s.messages.getLast? with
    | none => ⟨false, none, s, false⟩
    | some m =>
        if matchesAnyConsent m.content then
          ⟨false, none, { s with consent_obtained := true }, false⟩
        else
          match cl with
          | none => ⟨false, none, s, true⟩
          | some out =>
              let s2 := if out.consent_obtained then { s with consent_obtained := true } else s
              ⟨false, none, pushEvent s2 "consent_check" (!out.consent_obtained), true⟩

def piiReason (types : List String) : String :=
  "La respuesta contiene información personal (" ++ String.intercalate ", " types ++
    ") sin consentimiento."

/-- Embedding of `pii_check` (guardrails.py lines 327-390). -/
def pii_check (s : AgentState) (cl : Option PIIDetectionOutput) : GateResult :=
  if s.consent_obtained then ⟨false, none, s, false⟩
  else
    match s.messages.getLast? with
    | none => ⟨false, none, s, false⟩
    | some m =>
        let detected := detectedPiiTypes m.content
        if detected ≠ [] then ⟨true, some (piiReason detected), s, false⟩
        else
          match cl with
          | none => ⟨false, none, s, true⟩
          | some out =>
              let s2 := pushEvent s "pii_check" out.contains_pii
              if out.contains_pii then
                ⟨true, some (piiReason out.detected_pii_types), s2, true⟩
              else ⟨false, none, s2, true⟩

/-! ### Gate evaluations over the remainder of a session -/

/-- A classifier reply tagged with the gate it answers. -/
inductive ClassifierReply where
  | rel (o : Option RelevanceOutput)
  | sec (o : Option SecurityCheckOutput)
  | con (o : Option ConsentVerificationOutput)
  | pii (o : Option PIIDetectionOutput)

def runGate (s : AgentState) (r : ClassifierReply) : GateResult :=
  match r with
  | .rel o => relevance_check s o
  | .sec o => security_check s o
  | .con o => consent_check s o
  | .pii o => pii_check s o

/-- One later gate evaluation in the same session: the conversation's
`messages` may have changed arbitrarily in between, then one gate runs with
an arbitrary classifier reply. -/
structure SessionStep where
  newMessages : List Msg
  reply : ClassifierReply

def runStep (s : AgentState) (st : SessionStep) : AgentState :=
  (runGate { s with messages := st.newMessages } st.reply).state

def runSession (s : AgentState) (steps : List SessionStep) : AgentState :=
  steps.foldl runStep s

/-! ### Validation helpers (tools.py, section 1) -/

/-- The shape `+51` followed by exactly nine digits and nothing else (digits modelled as
ASCII; Python's `\d` is the Unicode decimal class, which agrees on every input
of this development). -/
def plainPhoneOk (t : String) : Bool :=
  let cs := t.toList
  decide (cs.length = 12) && ['+', '5', '1'].isPrefixOf cs && (cs.drop 3).all Char.isDigit

/-- Model of `_validate_phone`, i.e. `re.match(r'^\+51\d{9}$', t)`:
Python's `$` also matches just before one final newline, so a phone with one
trailing `'\n'` passes this check even though it is not literally `+51`
followed by nine digits. -/
def pyPhoneOk (t : String) : Bool :=
  plainPhoneOk t ||
    (t.toList.getLast? = some '\n' && plainPhoneOk (String.mk t.toList.dropLast))

/-- The pattern `[\w.-]+@[\w.-]+\.\w+` as a full-string match (used by `_validate_email`
and, without the trailing-newline allowance, by the pydantic email model). -/
def plainEmailOk (t : String) : Bool :=
  let (u, rest) := t.toList.span fun c => c ≠ '@'
  match rest with
  | '@' :: r2 =>
      (!u.isEmpty) && u.all emailCls &&
      (let rev := r2.reverse
       let (wrev, rest2) := rev.span isWordChar
       match rest2 with
       | '.' :: vrev => (!wrev.isEmpty) && (!vrev.isEmpty) && vrev.all emailCls
       | _ => false)
  | _ => false

/-- Model of `_validate_email`, i.e. `re.match(r'^[\w\.-]+@[\w\.-]+\.\w+$', e)`
(`$` again admits one trailing newline). -/
def pyEmailOk (t : String) : Bool :=
  plainEmailOk t ||
    (t.toList.getLast? = some '\n' && plainEmailOk (String.mk t.toList.dropLast))

/-- Eight ASCII digits and nothing else. -/
def plainDni8 (t : String) : Bool :=
  decide (t.toList.length = 8) && t.toList.all Char.isDigit

/-- Model of `_validate_document`: DNI (`tipo = "1"`) is
`re.match(r'^\d{8}$', numero)` (with the `$` trailing-newline allowance);
passport / foreigner card (`"2"`, `"3"`) only check `3 <= len <= 15`. -/
def pyDocumentOk (tipo numero : String) : Bool :=
  if tipo = "1" then
    plainDni8 numero ||
      (numero.toList.getLast? = some '\n' && plainDni8 (String.mk numero.toList.dropLast))
  else if tipo = "2" || tipo = "3" then
    decide (3 ≤ numero.length) && decide (numero.length ≤ 15)
  else false

structure ValidationResult where
  valid : Bool
  errors : List String
deriving DecidableEq

/-- Embedding of `validate_customer_data` (tools.py lines 43-82).  `None` arguments model
omitted keyword arguments; note the Python truthiness guards (`if email and
...`), under which an empty string is skipped. -/
def validate_customer_data (s : AgentState)
    (nombre email telefono tipo_documento numero_documento : Option String) :
    ValidationResult × AgentState :=
  let errors : List String :=
    (if truthy email && !pyEmailOk (email.getD "") then ["Email inválido."] else []) ++
    (if truthy telefono && !pyPhoneOk (telefono.getD "") then ["Teléfono inválido."] else []) ++
    (if truthy tipo_documento && truthy numero_documento
        && !pyDocumentOk (tipo_documento.getD "") (numero_documento.getD "")
     then ["Documento inválido."] else [])
  if errors.isEmpty then
    let ud := s.user_data
    let ud := if truthy nombre then udSet ud "nombre" (nombre.getD "") else ud
    let ud := if truthy email then udSet ud "email" (email.getD "") else ud
    let ud := if truthy telefono then udSet ud "telefono" (telefono.getD "") else ud
    let ud := if truthy tipo_documento then udSet ud "tipo_documento" (tipo_documento.getD "") else ud
    let ud := if truthy numero_documento then
        udSet ud "numero_documento" (numero_documento.getD "") else ud
    (⟨true, []⟩, { s with user_data := ud })
  else (⟨false, errors⟩, s)

/-! ### Pydantic CRM payload models (models.py) -/

inductive YesNo where
  | SI
  | NO
deriving DecidableEq

/-- Valid `PropertyType` enum codes. -/
def isPropertyType (x : String) : Bool := ["1", "2", "3", "4", "5"].contains x

/-- Valid `ZoneOption` enum codes. -/
def isZoneOption (x : String) : Bool := ["1", "2", "3", "4", "5", "6", "7", "8"].contains x

/-- Valid `AreaRange` enum codes. -/
def isAreaRange (x : String) : Bool := ["1", "2", "3", "4", "5", "6"].contains x

/-- Valid `DocType` enum codes. -/
def isDocType (x : String) : Bool := ["1", "2", "3"].contains x

/-- Valid `BedroomsOption` enum codes. -/
def isBedroomsOption (x : String) : Bool := ["1", "2", "3", "4", "5"].contains x

/-- Valid `BudgetOption` enum codes. -/
def isBudgetOption (x : String) : Bool := ["1", "2", "3", "4", "5", "6"].contains x

/-- Valid `TimeframeOption` enum codes. -/
def isTimeframeOption (x : String) : Bool := ["1", "2", "3", "4"].contains x

/-- Valid `PurposeOption` values. -/
def isPurposeOption (x : String) : Bool :=
  ["vivienda_principal", "inversión", "segunda_vivienda"].contains x

/-- Valid `YesNo` enum values, and their parse (`YesNo(credito_preaprobado)`). -/
def yesNoOf (x : String) : Option YesNo :=
  if x = "SI" then some YesNo.SI else if x = "NO" then some YesNo.NO else none

structure ContactInfo where
  nombre : String
  telefono : String
  email : Option String
deriving DecidableEq

/-- Pydantic validation of `ContactInfo`: `nombre` nonempty, `telefono`
matching `^\+51\d{9}$`.  Pydantic v2 compiles `pattern` with the Rust regex
engine, whose `$` anchors at the true end of the string — unlike Python's
`re` — so no trailing newline is admitted here.  The `EmailStr` validator is
approximated by the same email shape as `_validate_email`; no claim depends
on its exact boundary. -/
def mkContactInfo (nombre telefono : String) (email : Option String) : Option ContactInfo :=
  if nombre ≠ "" && plainPhoneOk telefono &&
      (match email with | none => true | some e => plainEmailOk e) then
    some ⟨nombre, telefono, email⟩
  else none

structure Document where
  tipo : String
  numero : String
deriving DecidableEq

/-- Model of `Document(tipo=DocType(tipo_documento), numero=numero_documento)`:
`DocType(...)` raises on an invalid code, and pydantic requires `numero` to be
3-15 alphanumeric characters. -/
def mkDocument (tipo numero : String) : Option Document :=
  if isDocType tipo && decide (3 ≤ numero.length) && decide (numero.length ≤ 15)
      && numero.toList.all Char.isAlphanum && numero ≠ "" then
    some ⟨tipo, numero⟩
  else none

structure PreLead where
  contacto : ContactInfo
  tipo_inmueble : String
  consentimiento : YesNo
  proyecto_id : String
  zona : String
  metraje : String
deriving DecidableEq

/-- Model of the `PreLead(...)` construction: enum parses raise on invalid codes and
pydantic checks `proyecto_id` nonempty.  `consentimiento` is whatever the
caller passes (the tools always pass `YesNo.SI`). -/
def mkPreLead (contacto : ContactInfo) (tipo_inmueble zona metraje : String)
    (consentimiento : YesNo) (proyecto_id : String) : Option PreLead :=
  if isPropertyType tipo_inmueble && isZoneOption zona && isAreaRange metraje
      && proyecto_id ≠ "" then
    some ⟨contacto, tipo_inmueble, consentimiento, proyecto_id, zona, metraje⟩
  else none

structure Lead where
  contacto : ContactInfo
  tipo_inmueble : String
  consentimiento : YesNo
  proyecto_id : String
  zona : String
  metraje : String
  document : Option Document
  habitaciones : String
  presupuesto : String
  tiempo_compra : String
  tiempo_busqueda : String
deriving DecidableEq

def mkLead (contacto : ContactInfo) (tipo_inmueble zona metraje habitaciones presupuesto
    tiempo_compra tiempo_busqueda : String) (document : Option Document)
    (consentimiento : YesNo) (proyecto_id : String) : Option Lead :=
  if isPropertyType tipo_inmueble && isZoneOption zona && isAreaRange metraje
      && isBedroomsOption habitaciones && isBudgetOption presupuesto
      && isTimeframeOption tiempo_compra && isTimeframeOption tiempo_busqueda
      && proyecto_id ≠ "" then
    some ⟨contacto, tipo_inmueble, consentimiento, proyecto_id, zona, metraje,
          document, habitaciones, presupuesto, tiempo_compra, tiempo_busqueda⟩
  else none

structure EnrichedLead where
  lead : Lead
  credito_preaprobado : YesNo
  cuota_inicial : YesNo
  proposito : String
deriving DecidableEq

def mkEnrichedLead (contacto : ContactInfo) (tipo_inmueble zona metraje habitaciones
    presupuesto tiempo_compra tiempo_busqueda : String)
    (credito_preaprobado cuota_inicial : YesNo) (proposito : String)
    (document : Option Document) (consentimiento : YesNo) (proyecto_id : String) :
    Option EnrichedLead :=
  match mkLead contacto tipo_inmueble zona metraje habitaciones presupuesto
      tiempo_compra tiempo_busqueda document consentimiento proyecto_id with
  | none => none
  | some l =>
      if isPurposeOption proposito then
        some ⟨l, credito_preaprobado, cuota_inicial, proposito⟩
      else none

/-- A CRM mutation attempted by a tool, with the payload it sent. -/
inductive CrmCall where
  | registerPrelead (p : PreLead)
  | updateLead (id : String) (p : Lead)
  | enrichLead (id : String) (p : EnrichedLead)
deriving DecidableEq

/-- The `consentimiento` field of the payload of a CRM call. -/
def crmConsent (c : CrmCall) : YesNo :=
  match c with
  | .registerPrelead p => p.consentimiento
  | .updateLead _ p => p.consentimiento
  | .enrichLead _ p => p.lead.consentimiento

structure RegisterLeadResult where
  lead_id : String
  status : String
  timestamp : String
  message : String
  errors : Option (List String)
deriving DecidableEq

/-- What a CRM tool evaluation produces: the structured result, the state as
left by the tool, and the CRM calls it attempted (in order). -/
structure ToolOutcome where
  result : RegisterLeadResult
  state : AgentState
  calls : List CrmCall
deriving DecidableEq

/-- Stand-in for `str(e)` of a pydantic `ValidationError` / enum `ValueError`
raised while building a payload.  Its exact text is irrelevant to the claims;
what matters is that it is the generic exception message, not one of the
errors produced by `validate_customer_data` (a real pydantic message is a
multi-line report and is never the string `"Teléfono inválido."`). -/
def pydanticErrMsg (model : String) : String := "validation error for " ++ model

/-- Stand-in for `str(e)` of a `KeyError` for dict key `k` (Python renders it
as the repr of the key, i.e. the quoted key). -/
def keyErrMsg (k : String) : String := "'" ++ k ++ "'"

/-! ### CRM tools (tools.py, section 2) -/

/-- Embedding of `register_prelead` (tools.py lines 89-154).  `crmNew` models the external
`crm_api.register_prelead` collaborator: `.ok id` is a returned lead id,
`.error e` a raised exception with message `e`; `now` models
`datetime.now().isoformat()`. -/
def register_prelead (s : AgentState)
    (nombre telefono tipo_inmueble zona metraje proyecto_id : String)
    (crmNew : Except String String) (now : String) : ToolOutcome :=
  let vs := validate_customer_data s (some nombre) none (some telefono) none none
  let v := vs.1
  let s1 := vs.2
  if !v.valid then
    ⟨⟨"", "error", now, "Datos inválidos", some v.errors⟩, s1, []⟩
  else
    match mkContactInfo nombre telefono none with
    | none =>
        let e := pydanticErrMsg "ContactInfo"
        ⟨⟨"", "error", now, e, some [e]⟩, s1, []⟩
    | some contacto =>
        match mkPreLead contacto tipo_inmueble zona metraje YesNo.SI proyecto_id with
        | none =>
            let e := pydanticErrMsg "PreLead"
            ⟨⟨"", "error", now, e, some [e]⟩, s1, []⟩
        | some pl =>
            match crmNew with
            | .error e => ⟨⟨"", "error", now, e, some [e]⟩, s1, [.registerPrelead pl]⟩
            | .ok lead_id =>
                let ud := s1.user_data
                let ud := udSet ud "lead_id" lead_id
                let ud := udSet ud "lead_stage" "prelead"
                let ud := udSet ud "nombre" nombre
                let ud := udSet ud "telefono" telefono
                let ud := udSet ud "tipo_inmueble" tipo_inmueble
                let ud := udSet ud "zona" zona
                let ud := udSet ud "metraje" metraje
                ⟨⟨lead_id, "success", now, "PreLead ID=" ++ lead_id, none⟩,
                 { s1 with user_data := ud }, [.registerPrelead pl]⟩

/-- Embedding of `register_lead` (tools.py lines 157-248).  `crmUpd` models
`crm_api.update_lead`: `.ok b` a returned boolean, `.error e` a raised
exception. -/
def register_lead (s : AgentState)
    (email habitaciones presupuesto tiempo_compra tiempo_busqueda : String)
    (tipo_documento numero_documento : Option String)
    (crmUpd : Except String Bool) (now : String) : ToolOutcome :=
  match udGet s.user_data "lead_id" with
  | none => ⟨⟨"", "error", now, "No existe prelead", some ["Prelead no encontrado"]⟩, s, []⟩
  | some lead_id =>
    let vs := validate_customer_data s none (some email) none tipo_documento numero_documento
    let v := vs.1
    let s1 := vs.2
    if !v.valid then
      ⟨⟨"", "error", now, "Datos inválidos", some v.errors⟩, s1, []⟩
    else
      -- the `try` block; `ud` below is the (alias-updated) dict after validation
      let ud := s1.user_data
      let errOut := fun (e : String) (calls : List CrmCall) =>
        ToolOutcome.mk ⟨"", "error", now, e, some [e]⟩ s1 calls
      match udGet ud "nombre" with
      | none => errOut (keyErrMsg "nombre") []
      | some nombre =>
        match udGet ud "telefono" with
        | none => errOut (keyErrMsg "telefono") []
        | some telefono =>
          match mkContactInfo nombre telefono (some email) with
          | none => errOut (pydanticErrMsg "ContactInfo") []
          | some contacto =>
            let docRes : Except String (Option Document) :=
              if truthy tipo_documento && truthy numero_documento then
                match mkDocument (tipo_documento.getD "") (numero_documento.getD "") with
                | none => .error (pydanticErrMsg "Document")
                | some d => .ok (some d)
              else .ok none
            match docRes with
            | .error e => errOut e []
            | .ok doc =>
              match udGet ud "tipo_inmueble" with
              | none => errOut (keyErrMsg "tipo_inmueble") []
              | some tipo_inmueble =>
                match udGet ud "zona" with
                | none => errOut (keyErrMsg "zona") []
                | some zona =>
                  match udGet ud "metraje" with
                  | none => errOut (keyErrMsg "metraje") []
                  | some metraje =>
                    match mkLead contacto tipo_inmueble zona metraje habitaciones presupuesto
                        tiempo_compra tiempo_busqueda doc YesNo.SI
                        ((udGet ud "proyecto_id").getD "WEB001") with
                    | none => errOut (pydanticErrMsg "Lead") []
                    | some lead =>
                      match crmUpd with
                      | .error e => errOut e [.updateLead lead_id lead]
                      | .ok false => errOut "CRM update_lead falló" [.updateLead lead_id lead]
                      | .ok true =>
                          let ud2 := udSet ud "email" email
                          let ud2 := udSet ud2 "habitaciones" habitaciones
                          let ud2 := udSet ud2 "presupuesto" presupuesto
                          let ud2 := udSet ud2 "tiempo_compra" tiempo_compra
                          let ud2 := udSet ud2 "tiempo_busqueda" tiempo_busqueda
                          let ud2 := udSet ud2 "lead_stage" "lead"
                          ⟨⟨lead_id, "success", now, "Lead actualizado ID=" ++ lead_id, none⟩,
                           { s1 with user_data := ud2 }, [.updateLead lead_id lead]⟩

/-- Embedding of `enrich_lead` (tools.py lines 251-326).  `crmEnr` models
`crm_api.enrich_lead`. -/
def enrich_lead (s : AgentState) (credito_preaprobado cuota_inicial proposito : String)
    (crmEnr : Except String Bool) (now : String) : ToolOutcome :=
  let ud := s.user_data
  if (udGet ud "lead_id").isNone || (udGet ud "email").isNone then
    ⟨⟨"", "error", now, "No existe lead completo", some ["Lead no encontrado"]⟩, s, []⟩
  else
    let errOut := fun (e : String) (calls : List CrmCall) =>
      ToolOutcome.mk ⟨"", "error", now, e, some [e]⟩ s calls
    match udGet ud "nombre" with
    | none => errOut (keyErrMsg "nombre") []
    | some nombre =>
      match udGet ud "telefono" with
      | none => errOut (keyErrMsg "telefono") []
      | some telefono =>
        match mkContactInfo nombre telefono (udGet ud "email") with
        | none => errOut (pydanticErrMsg "ContactInfo") []
        | some contacto =>
          let docRes : Except String (Option Document) :=
            if truthy (udGet ud "tipo_documento") && truthy (udGet ud "numero_documento") then
              match mkDocument ((udGet ud "tipo_documento").getD "")
                  ((udGet ud "numero_documento").getD "") with
              | none => .error (pydanticErrMsg "Document")
              | some d => .ok (some d)
            else .ok none
          match docRes with
          | .error e => errOut e []
          | .ok doc =>
            match udGet ud "tipo_inmueble", udGet ud "zona", udGet ud "metraje" with
            | none, _, _ => errOut (keyErrMsg "tipo_inmueble") []
            | some _, none, _ => errOut (keyErrMsg "zona") []
            | some _, some _, none => errOut (keyErrMsg "metraje") []
            | some tipo_inmueble, some zona, some metraje =>
              match udGet ud "habitaciones", udGet ud "presupuesto" with
              | none, _ => errOut (keyErrMsg "habitaciones") []
              | some _, none => errOut (keyErrMsg "presupuesto") []
              | some habitaciones, some presupuesto =>
                match udGet ud "tiempo_compra", udGet ud "tiempo_busqueda" with
                | none, _ => errOut (keyErrMsg "tiempo_compra") []
                | some _, none => errOut (keyErrMsg "tiempo_busqueda") []
                | some tiempo_compra, some tiempo_busqueda =>
                  match yesNoOf credito_preaprobado, yesNoOf cuota_inicial with
                  | none, _ => errOut (pydanticErrMsg "EnrichedLead") []
                  | some _, none => errOut (pydanticErrMsg "EnrichedLead") []
                  | some credito, some cuota =>
                    match mkEnrichedLead contacto tipo_inmueble zona metraje habitaciones
                        presupuesto tiempo_compra tiempo_busqueda credito cuota proposito
                        doc YesNo.SI ((udGet ud "proyecto_id").getD "WEB001") with
                    | none => errOut (pydanticErrMsg "EnrichedLead") []
                    | some enriched =>
                      let lead_id := (udGet ud "lead_id").getD ""
                      match crmEnr with
                      | .error e => errOut e [.enrichLead lead_id enriched]
                      | .ok false => errOut "CRM enrich_lead falló" [.enrichLead lead_id enriched]
                      | .ok true =>
                          let ud2 := udSet ud "credito_preaprobado" credito_preaprobado
                          let ud2 := udSet ud2 "cuota_inicial" cuota_inicial
                          let ud2 := udSet ud2 "proposito" proposito
                          let ud2 := udSet ud2 "lead_stage" "enriched_lead"
                          ⟨⟨lead_id, "success", now, "Lead enriquecido ID=" ++ lead_id, none⟩,
                           { s with user_data := ud2 }, [.enrichLead lead_id enriched]⟩

/-! ### Property search (tools.py, sections 3 and 5) -/

/-- Embedding of `_map_budget` (tools.py lines 333-339); Python floats are modelled as
exact rationals. -/
def map_budget (max_price : ℚ) : String :=
  if max_price ≤ 350000 then "1"
  else if max_price ≤ 500000 then "2"
  else if max_price ≤ 650000 then "3"
  else if max_price ≤ 800000 then "4"
  else if max_price ≤ 1000000 then "5"
  else "6"

/-- A synthetic listing produced by `generate_fallback_properties`. -/
structure FallbackProp where
  id : String
  titulo : String
  precio : ℚ
  habitaciones : Int
  descripcion : String
  amenidades : List String
  fotos : List String
deriving DecidableEq

/-- Embedding of `generate_fallback_properties` (tools.py lines 342-364); note the Python
truthiness defaults (`zona or "Lima"`, `max_precio * 0.9 if max_precio else
150_000`, `habitaciones or 2`), under which `""` and `0` also select the
default. -/
def generate_fallback_properties (zona tipo : Option String) (max_precio : Option ℚ)
    (habitaciones : Option Int) (max_results : Nat) : List FallbackProp :=
  let zd := if truthy zona then zona.getD "" else "Lima"
  let tipo2 := if truthy tipo then tipo.getD "" else "Departamento"
  let base : ℚ := match max_precio with
    | some p => if p ≠ 0 then p * (9 / 10) else 150000
    | none => 150000
  let hab : Int := match habitaciones with
    | some h => if h ≠ 0 then h else 2
    | none => 2
  (List.range max_results).map fun (i : Nat) =>
    { id := "FB-" ++ zd ++ "-" ++ toString (i + 1)
      titulo := tipo2 ++ " en " ++ zd
      precio := base * (1 + (5 / 100) * (i : ℚ))
      habitaciones := hab + (i : Int)
      descripcion := "Propiedad en " ++ zd ++ " con " ++ toString (hab + (i : Int)) ++
        " habitaciones."
      amenidades := ["Seguridad 24/7", "Estacionamiento"]
      fotos := [] }

/-- One row of the `build_query_units` result set (`RealDictCursor`): the
eight selected columns, with `Option` for SQL NULL. -/
structure DbRow where
  id : Int
  titulo : Option String
  precio : Option ℚ
  habitaciones : Option Int
  banios : Option ℚ
  area : Option ℚ
  proyecto : Option String
  zona : Option String
deriving DecidableEq

/-- How a Python f-string renders a possibly-`None` value. -/
def pyShowOptStr (o : Option String) : String := match o with | none => "None" | some v => v

def pyShowOptInt (o : Option Int) : String := match o with | none => "None" | some v => toString v

/-- A formatted database listing as built by the loop in `sql_query_units`
(tools.py lines 463-476). -/
structure DbProp where
  id : String
  titulo : String
  precio : Option ℚ
  habitaciones : Option Int
  banios : Option ℚ
  area : Option ℚ
  descripcion : String
  proyecto : Option String
  amenidades : List String
  fotos : List String
deriving DecidableEq

/-- An element of the list returned by `sql_query_units`: either a formatted
database row or a synthetic fallback listing. -/
inductive PropEntry where
  | fromDb (p : DbProp)
  | fromFallback (p : FallbackProp)
deriving DecidableEq

def formatRow (zona tipo_propiedad : Option String) (row : DbRow) : DbProp :=
  let defTitulo := (if truthy tipo_propiedad then tipo_propiedad.getD "" else "Propiedad") ++
    " en " ++ (if truthy zona then zona.getD "" else "Lima")
  { id := "DB-" ++ toString row.id
    titulo := if truthy row.titulo then row.titulo.getD "" else defTitulo
    precio := row.precio
    habitaciones := row.habitaciones
    banios := row.banios
    area := row.area
    descripcion := "Propiedad en " ++
      pyShowOptStr (match row.zona with
        | some z => some z
        | none => some (if truthy zona then zona.getD "" else "Lima")) ++
      " con " ++ pyShowOptInt row.habitaciones ++ " habitaciones."
    proyecto := row.proyecto
    amenidades := []
    fotos := [] }

/-- Embedding of `sql_query_units` (tools.py lines 410-488).  `db` models the
psycopg2 query: `.ok rows` a fetched result set, `.error e` any exception
raised while connecting or executing. -/
def sql_query_units (s : AgentState) (zona tipo_propiedad : Option String)
    (min_precio max_precio : Option ℚ) (habitaciones : Option Int) (limit : Int)
    (db : Except String (List DbRow)) : List PropEntry × AgentState :=
  let s1 := { s with properties_shown := true, interaction_count := s.interaction_count + 1 }
  let ud := s1.user_data
  let ud := if truthy zona && !truthy (udGet ud "zona") then
      udSet ud "zona" (zona.getD "") else ud
  let ud := if truthy tipo_propiedad && !truthy (udGet ud "tipo_inmueble") then
      udSet ud "tipo_inmueble" (tipo_propiedad.getD "") else ud
  let ud := if (match habitaciones with | some h => h ≠ 0 | none => false)
      && !truthy (udGet ud "habitaciones") then
      udSet ud "habitaciones" (toString (habitaciones.getD 0)) else ud
  let ud := if (match max_precio with | some p => p ≠ 0 | none => false)
      && !truthy (udGet ud "presupuesto") then
      udSet ud "presupuesto" (map_budget (max_precio.getD 0)) else ud
  let s2 := { s1 with user_data := ud }
  match db with
  | .error _ =>
      ((generate_fallback_properties zona tipo_propiedad max_precio habitaciones 2).map
        .fromFallback, s2)
  | .ok rows =>
      let formatted := rows.map (formatRow zona tipo_propiedad)
      if formatted.isEmpty then
        ((generate_fallback_properties zona tipo_propiedad max_precio habitaciones 2).map
          .fromFallback, s2)
      else (formatted.map .fromDb, s2)

/-! ### Concrete fixtures used by witnesses and counterexamples -/

def msgOf (c : String) : Msg := ⟨"human", c⟩

def stateWith (ms : List Msg) (consent : Bool) : AgentState :=
  ⟨ms, consent, [], ⟨[], false⟩, false, 0⟩

def sFutbol : AgentState := stateWith [msgOf "fútbol"] false

def sAcepto : AgentState := stateWith [msgOf "acepto"] false

def sHolaFutbol : AgentState := stateWith [msgOf "hola fútbol"] false

def sVentaMundial : AgentState := stateWith [msgOf "venta mundial"] false

def sAmbiguous : AgentState := stateWith [msgOf "zzz qqq"] false

def sNoMessages : AgentState := stateWith [] false

def piiMsg : Msg := msgOf "Mi DNI es 12345678"

def consentedState : AgentState := stateWith [msgOf "hola"] true

def consideringState : AgentState := stateWith [msgOf "considerando"] false

/-! ### Helper lemmas -/

/-- No gate ever changes `consent_obtained` from `true` back to `false`. -/
theorem gate_preserves_consent (s : AgentState) (r : ClassifierReply)
    (h : s.consent_obtained = true) : (runGate s r).state.consent_obtained = true := by
  cases r with
  | rel o =>
      simp only [runGate]
      unfold relevance_check
      repeat' split
      all_goals simp_all
  | sec o =>
      simp only [runGate]
      unfold security_check
      repeat' split
      all_goals simp_all [pushEvent]
  | con o =>
      simp only [runGate]
      simp [consent_check, h]
  | pii o =>
      simp only [runGate]
      simp [pii_check, h]

/-- The flag `consent_obtained = true` survives any sequence of later gate
evaluations. -/
theorem runSession_preserves_consent (s : AgentState) (steps : List SessionStep)
    (h : s.consent_obtained = true) : (runSession s steps).consent_obtained = true := by
  induction steps generalizing s with
  | nil => exact h
  | cons st rest ih => exact ih _ (gate_preserves_consent { s with messages := st.newMessages } st.reply h)

/-- The first `"consentimiento"` pattern is one of the patterns scanned by
`consent_check`. -/
theorem matchesAnyConsent_of_pat1 (c : String) (h : matchesConsentPat1 c = true) :
    matchesAnyConsent c = true := by
  unfold matchesConsentPat1 at h
  simp [matchesAnyConsent, consentPatterns, h]

/-! ### Claims -/

/-- C1: for every state with `consent_obtained = true`, no later evaluation of
any gate (in particular `consent_check` or `pii_check`) can set
`consent_obtained` back to false — over any sequence of later gate
evaluations, with arbitrary intervening message updates and arbitrary
classifier replies — and `pii_check` returns `guardrail_triggered = false`
immediately: leaving the state untouched and never invoking the classifier,
for every message list and classifier reply. -/
theorem C1_consent_monotonicity (s : AgentState) (h : s.consent_obtained = true) :
    (∀ steps : List SessionStep, (runSession s steps).consent_obtained = true) ∧
    (∀ (s2 : AgentState) (cl : Option PIIDetectionOutput), s2.consent_obtained = true →
       pii_check s2 cl = ⟨false, none, s2, false⟩) ∧
    (∀ (s2 : AgentState) (cl : Option ConsentVerificationOutput), s2.consent_obtained = true →
       consent_check s2 cl = ⟨false, none, s2, false⟩) :=
  ⟨fun steps => runSession_preserves_consent s steps h,
   fun s2 cl h2 => by simp [pii_check, h2],
   fun s2 cl h2 => by simp [consent_check, h2]⟩

/-- C1 witness: a consented state stays consented across a later `pii_check`
and `consent_check` on a PII-laden message, and that `pii_check` allows
without reading the message. -/
theorem C1_witness :
    (runSession consentedState
        [⟨[piiMsg], .pii none⟩, ⟨[piiMsg], .con none⟩]).consent_obtained = true ∧
    pii_check { consentedState with messages := [piiMsg] } none =
      ⟨false, none, { consentedState with messages := [piiMsg] }, false⟩ :=
  ⟨(C1_consent_monotonicity consentedState rfl).1 _,
   (C1_consent_monotonicity consentedState rfl).2.1 _ none rfl⟩

/-- C2 counterexample: the claim quantifies over *every* state, but the
fail-open rule only applies on the classifier path.  With a failing
classifier, `relevance_check` still triggers on the off-topic message
`"fútbol"` (deterministic blocklist hit, classifier never reached), and
`consent_check` still flips `consent_obtained` on the message `"acepto"`
(deterministic consent-pattern hit). -/
theorem C2_counterexample :
    ¬ (∀ s : AgentState,
        (relevance_check s none).triggered = false ∧
        (security_check s none).triggered = false ∧
        (pii_check s none).triggered = false ∧
        (consent_check s none).triggered = false ∧
        (consent_check s none).state.consent_obtained = s.consent_obtained) :=
  fun h => absurd (And.intro (h sFutbol).1 (h sAcepto).2.2.2.2) (by decide)

/-- C2 (amended): *when a gate's evaluation reaches the classifier call* and
the call raises or its output fails to parse (`cl = none`), then
`relevance_check`, `security_check` and `pii_check` return
`guardrail_triggered = false`, and `consent_check` returns
`guardrail_triggered = false` and leaves the state (in particular
`consent_obtained`) unchanged. -/
theorem C2_fail_open_on_classifier_path (s : AgentState) :
    ((relevance_check s none).classifierInvoked = true →
       (relevance_check s none).triggered = false) ∧
    ((security_check s none).classifierInvoked = true →
       (security_check s none).triggered = false) ∧
    ((pii_check s none).classifierInvoked = true →
       (pii_check s none).triggered = false) ∧
    ((consent_check s none).classifierInvoked = true →
       (consent_check s none).triggered = false ∧ (consent_check s none).state = s) := by
  refine ⟨?_, ?_, ?_, ?_⟩
  · simp only [relevance_check]
    repeat' split
    all_goals simp_all
  · simp only [security_check]
    repeat' split
    all_goals simp_all
  · simp only [pii_check]
    repeat' split
    all_goals simp_all
  · simp only [consent_check]
    repeat' split
    all_goals simp_all

/-- C2 witness: on the pattern-free message `"zzz qqq"` all four gates reach
the classifier, and with a failing classifier all four allow and
`consent_check` leaves the state unchanged. -/
theorem C2_witness :
    (relevance_check sAmbiguous none).classifierInvoked = true ∧
    (relevance_check sAmbiguous none).triggered = false ∧
    (security_check sAmbiguous none).classifierInvoked = true ∧
    (security_check sAmbiguous none).triggered = false ∧
    (pii_check sAmbiguous none).classifierInvoked = true ∧
    (pii_check sAmbiguous none).triggered = false ∧
    (consent_check sAmbiguous none).classifierInvoked = true ∧
    (consent_check sAmbiguous none).triggered = false ∧
    (consent_check sAmbiguous none).state = sAmbiguous :=
  ⟨by decide, (C2_fail_open_on_classifier_path sAmbiguous).1 (by decide),
   by decide, (C2_fail_open_on_classifier_path sAmbiguous).2.1 (by decide),
   by decide, (C2_fail_open_on_classifier_path sAmbiguous).2.2.1 (by decide),
   by decide, ((C2_fail_open_on_classifier_path sAmbiguous).2.2.2 (by decide)).1,
   ((C2_fail_open_on_classifier_path sAmbiguous).2.2.2 (by decide)).2⟩

/-- C3 counterexample: matching an off-topic pattern does *not* suffice for
`relevance_check` to trigger, because the domain patterns and the greeting
pattern are checked first.  `"hola fútbol"` matches the off-topic pattern
`(?i)(f[uú]tbol|...)` but is allowed via the greeting fast path; `"venta
mundial"` matches an off-topic pattern but is allowed via the domain pattern
`venta`. -/
theorem C3_counterexample :
    ¬ (∀ (s : AgentState) (cl : Option RelevanceOutput) (m : Msg),
        s.messages.getLast? = some m → matchesAnyOffTopic m.content = true →
        (relevance_check s cl).triggered = true ∧
        (relevance_check s cl).reason =
          some "Tu consulta no está relacionada con bienes raíces." ∧
        (relevance_check s cl).classifierInvoked = false) :=
  fun h => absurd
    (And.intro (h sHolaFutbol none (msgOf "hola fútbol") (by decide) (by decide)).1
      (h sVentaMundial none (msgOf "venta mundial") (by decide) (by decide)).1)
    (by decide)

/-- C3 (amended): for every state whose last message matches one of the
blocklisted off-topic patterns *and matches no domain-relevant pattern and is
not a greeting*, `relevance_check` triggers with the reason
`"Tu consulta no está relacionada con bienes raíces."` (which contains
`"no está relacionada"`), and the classifier is not invoked. -/
theorem C3_offtopic_triggers (s : AgentState) (cl : Option RelevanceOutput) (m : Msg)
    (hm : s.messages.getLast? = some m)
    (hoff : matchesAnyOffTopic m.content = true)
    (hdom : matchesAnyDomain m.content = false)
    (hgreet : matchesGreeting m.content = false) :
    (relevance_check s cl).triggered = true ∧
    (relevance_check s cl).reason =
      some "Tu consulta no está relacionada con bienes raíces." ∧
    (relevance_check s cl).classifierInvoked = false := by
  simp [relevance_check, hm, hoff, hdom, hgreet]

/-- C3 witness: the message `"fútbol"` (off topic, no domain hit, not a
greeting) is blocked with the "not related" reason and no classifier call. -/
theorem C3_witness :
    (relevance_check sFutbol none).triggered = true ∧
    (relevance_check sFutbol none).reason =
      some "Tu consulta no está relacionada con bienes raíces." ∧
    (relevance_check sFutbol none).classifierInvoked = false :=
  C3_offtopic_triggers sFutbol none (msgOf "fútbol") (by decide) (by decide) (by decide)
    (by decide)

/-- C4: for every state whose last message matches at least one
domain-relevant pattern, `relevance_check` allows without invoking the
classifier — regardless of anything else in the message (in particular even
if it also matches an off-topic pattern, since the domain patterns are
checked first). -/
theorem C4_domain_allows (s : AgentState) (cl : Option RelevanceOutput) (m : Msg)
    (hm : s.messages.getLast? = some m)
    (hdom : matchesAnyDomain m.content = true) :
    (relevance_check s cl).triggered = false ∧
    (relevance_check s cl).classifierInvoked = false := by
  simp [relevance_check, hm, hdom]

/-- C4 witness: `"venta mundial"` matches both a domain pattern (`venta`) and
an off-topic pattern (`mundial`), and is still allowed without a classifier
call. -/
theorem C4_witness :
    matchesAnyOffTopic "venta mundial" = true ∧
    (relevance_check sVentaMundial none).triggered = false ∧
    (relevance_check sVentaMundial none).classifierInvoked = false :=
  ⟨by decide,
   (C4_domain_allows sVentaMundial none (msgOf "venta mundial") (by decide) (by decide)).1,
   (C4_domain_allows sVentaMundial none (msgOf "venta mundial") (by decide) (by decide)).2⟩

/-- C5: if the `messages` list is empty, each of the four gates returns
`guardrail_triggered = false`, for every classifier reply. -/
theorem C5_empty_messages_allow (s : AgentState) (h : s.messages = [])
    (c1 : Option RelevanceOutput) (c2 : Option SecurityCheckOutput)
    (c3 : Option ConsentVerificationOutput) (c4 : Option PIIDetectionOutput) :
    (relevance_check s c1).triggered = false ∧
    (security_check s c2).triggered = false ∧
    (consent_check s c3).triggered = false ∧
    (pii_check s c4).triggered = false := by
  have hl : s.messages.getLast? = none := by rw [h]; rfl
  by_cases hc : s.consent_obtained <;>
    simp [relevance_check, security_check, consent_check, pii_check, hl, hc]

/-- C5 witness: all four gates allow on a state with no messages. -/
theorem C5_witness :
    (relevance_check sNoMessages none).triggered = false ∧
    (security_check sNoMessages none).triggered = false ∧
    (consent_check sNoMessages none).triggered = false ∧
    (pii_check sNoMessages none).triggered = false :=
  C5_empty_messages_allow sNoMessages rfl none none none none

/-- C9: for every state with `consent_obtained = false` and a last message
matching the first compiled consent pattern `(?i)(acepto|autorizo|consiento|s[iíÍ])`
— which matches the substring `si` anywhere, including inside unrelated
words — `consent_check` sets `consent_obtained = true`, returns
`guardrail_triggered = false`, and does not invoke the classifier. -/
theorem C9_consent_regex_sets_flag (s : AgentState) (cl : Option ConsentVerificationOutput)
    (m : Msg) (hc : s.consent_obtained = false) (hm : s.messages.getLast? = some m)
    (hp : matchesConsentPat1 m.content = true) :
    consent_check s cl = ⟨false, none, { s with consent_obtained := true }, false⟩ := by
  simp [consent_check, hc, hm, matchesAnyConsent_of_pat1 m.content hp]

/-- C9 witness: `"considerando"` contains the substring `si`, so the consent
pattern fires on a message that says nothing about consent, and the flag is
set without a classifier call. -/
theorem C9_witness :
    consent_check consideringState none =
      ⟨false, none, { consideringState with consent_obtained := true }, false⟩ :=
  C9_consent_regex_sets_flag consideringState none (msgOf "considerando") rfl (by decide)
    (by decide)

/-! ### Tool claims -/

/-- The `consentimiento` field of a constructed `PreLead` payload is exactly
the value the caller passed. -/
theorem mkPreLead_consent (co : ContactInfo) (t z m : String) (cons : YesNo) (p : String)
    (pl : PreLead) (h : mkPreLead co t z m cons p = some pl) : pl.consentimiento = cons := by
  unfold mkPreLead at h
  split at h
  · injection h with h2; subst h2; rfl
  · exact Option.noConfusion h

/-- The `consentimiento` field of a constructed `Lead` payload is exactly the
value the caller passed. -/
theorem mkLead_consent (co : ContactInfo) (t z m hb pr tc tb : String) (doc : Option Document)
    (cons : YesNo) (proj : String) (l : Lead)
    (h : mkLead co t z m hb pr tc tb doc cons proj = some l) : l.consentimiento = cons := by
  unfold mkLead at h
  split at h
  · injection h with h2; subst h2; rfl
  · exact Option.noConfusion h

/-- The `consentimiento` field of a constructed `EnrichedLead` payload is
exactly the value the caller passed. -/
theorem mkEnrichedLead_consent (co : ContactInfo) (t z m hb pr tc tb : String)
    (cr cu : YesNo) (pp : String) (doc : Option Document) (cons : YesNo) (proj : String)
    (e : EnrichedLead) (h : mkEnrichedLead co t z m hb pr tc tb cr cu pp doc cons proj = some e) :
    e.lead.consentimiento = cons := by
  unfold mkEnrichedLead at h
  split at h
  · exact Option.noConfusion h
  · rename_i l hl
    split at h
    · injection h with h2; subst h2
      exact mkLead_consent _ _ _ _ _ _ _ _ _ _ _ _ hl
    · exact Option.noConfusion h

/-- Every CRM call attempted by `register_prelead` carries
`consentimiento = SI`. -/
theorem register_prelead_calls_SI (s : AgentState)
    (nombre telefono tipo_inmueble zona metraje proyecto_id : String)
    (crmNew : Except String String) (now : String) (c : CrmCall)
    (hc : c ∈ (register_prelead s nombre telefono tipo_inmueble zona metraje proyecto_id
      crmNew now).calls) :
    crmConsent c = YesNo.SI := by
  simp only [register_prelead] at hc
  repeat' split at hc
  all_goals simp_all [crmConsent]
  all_goals (rename_i hq; exact mkPreLead_consent _ _ _ _ _ _ _ hq)

/-- Every CRM call attempted by `register_lead` carries
`consentimiento = SI`. -/
theorem register_lead_calls_SI (s : AgentState)
    (email habitaciones presupuesto tiempo_compra tiempo_busqueda : String)
    (tipo_documento numero_documento : Option String)
    (crmUpd : Except String Bool) (now : String) (c : CrmCall)
    (hc : c ∈ (register_lead s email habitaciones presupuesto tiempo_compra tiempo_busqueda
      tipo_documento numero_documento crmUpd now).calls) :
    crmConsent c = YesNo.SI := by
  simp only [register_lead] at hc
  repeat' split at hc
  all_goals simp_all [crmConsent]
  all_goals (rename_i hq; exact mkLead_consent _ _ _ _ _ _ _ _ _ _ _ _ hq)

/-- Every CRM call attempted by `enrich_lead` carries `consentimiento = SI`. -/
theorem enrich_lead_calls_SI (s : AgentState)
    (credito_preaprobado cuota_inicial proposito : String)
    (crmEnr : Except String Bool) (now : String) (c : CrmCall)
    (hc : c ∈ (enrich_lead s credito_preaprobado cuota_inicial proposito crmEnr now).calls) :
    crmConsent c = YesNo.SI := by
  simp only [enrich_lead] at hc
  repeat' split at hc
  all_goals simp_all [crmConsent]
  all_goals (rename_i hq; exact mkEnrichedLead_consent _ _ _ _ _ _ _ _ _ _ _ _ _ _ _ hq)

/-- C6: if `user_data` has no `"lead_id"` key, `register_lead` returns the
structured error result (`status = "error"`, message `"No existe prelead"`,
errors `["Prelead no encontrado"]`), attempts no CRM call, and leaves the
state — in particular `user_data` — unchanged. -/
theorem C6_register_lead_requires_prelead (s : AgentState)
    (email habitaciones presupuesto tiempo_compra tiempo_busqueda : String)
    (tipo_documento numero_documento : Option String)
    (crmUpd : Except String Bool) (now : String)
    (h : udGet s.user_data "lead_id" = none) :
    register_lead s email habitaciones presupuesto tiempo_compra tiempo_busqueda
        tipo_documento numero_documento crmUpd now =
      ⟨⟨"", "error", now, "No existe prelead", some ["Prelead no encontrado"]⟩, s, []⟩ := by
  simp [register_lead, h]

/-- C6 witness: promoting a lead on a fresh state (no prelead registered)
fails with the missing-prerequisite error and changes nothing. -/
theorem C6_witness :
    register_lead sNoMessages "a@b.c" "1" "1" "1" "1" none none (.ok true) "T" =
      ⟨⟨"", "error", "T", "No existe prelead", some ["Prelead no encontrado"]⟩,
       sNoMessages, []⟩ :=
  C6_register_lead_requires_prelead sNoMessages "a@b.c" "1" "1" "1" "1" none none (.ok true)
    "T" (by decide)

/-- C7 counterexample: the claim fails for two phone strings that are not
`+51` followed by nine digits.  `"+51123456789\n"` passes `_validate_phone`
(Python's `$` also matches before one final newline), so validation succeeds
and `"Teléfono inválido."` is never produced (the call then dies inside the
pydantic `ContactInfo` constructor with a generic validation message).  The
empty string `""` is falsy, so `validate_customer_data` skips the phone check
entirely, with the same outcome. -/
theorem C7_counterexample :
    ¬ (∀ (s : AgentState) (nombre telefono tipo_inmueble zona metraje proyecto_id : String)
         (crmNew : Except String String) (now : String),
        plainPhoneOk telefono = false →
        ((register_prelead s nombre telefono tipo_inmueble zona metraje proyecto_id
            crmNew now).result.status = "error" ∧
         ((register_prelead s nombre telefono tipo_inmueble zona metraje proyecto_id
            crmNew now).result.errors.getD []).contains "Teléfono inválido." = true ∧
         (register_prelead s nombre telefono tipo_inmueble zona metraje proyecto_id
            crmNew now).state = s ∧
         (register_prelead s nombre telefono tipo_inmueble zona metraje proyecto_id
            crmNew now).calls = [])) :=
  fun h => absurd
    (And.intro
      (h sNoMessages "Juan" "+51123456789\n" "1" "1" "1" "WEB001" (.ok "L1") "T"
        (by decide)).2.1
      (h sNoMessages "Juan" "" "1" "1" "1" "WEB001" (.ok "L1") "T" (by decide)).2.1)
    (by decide)

/-- C7 (amended): for every *nonempty* `telefono` that fails the source's
Python-semantics phone check `re.match(r'^\+51\d{9}$', ...)` (which, unlike
the plain reading "+51 followed by nine digits", also accepts one trailing
newline), `register_prelead` returns `status = "error"` with errors exactly
`["Teléfono inválido."]`, leaves the state (hence `user_data`) unchanged, and
attempts no CRM call. -/
theorem C7_invalid_phone_error (s : AgentState)
    (nombre telefono tipo_inmueble zona metraje proyecto_id : String)
    (crmNew : Except String String) (now : String)
    (hne : telefono ≠ "") (h : pyPhoneOk telefono = false) :
    register_prelead s nombre telefono tipo_inmueble zona metraje proyecto_id crmNew now =
      ⟨⟨"", "error", now, "Datos inválidos", some ["Teléfono inválido."]⟩, s, []⟩ := by
  simp [register_prelead, validate_customer_data, truthy, hne, h]

/-- C7 witness: a malformed phone is rejected with `"Teléfono inválido."`,
no state change and no CRM call. -/
theorem C7_witness :
    register_prelead sNoMessages "Juan" "12345" "1" "1" "1" "WEB001" (.ok "L1") "T" =
      ⟨⟨"", "error", "T", "Datos inválidos", some ["Teléfono inválido."]⟩, sNoMessages, []⟩ :=
  C7_invalid_phone_error sNoMessages "Juan" "12345" "1" "1" "1" "WEB001" (.ok "L1") "T"
    (by decide) (by decide)

/-- C8: for every combination of filter criteria, when the catalog query
raises or yields zero rows, `sql_query_units` returns exactly the synthetic
listings produced by `generate_fallback_properties` (with its default of two
placeholders — in particular, never an empty list and never an error). -/
theorem C8_fallback_on_empty_or_error (s : AgentState) (zona tipo_propiedad : Option String)
    (min_precio max_precio : Option ℚ) (habitaciones : Option Int) (limit : Int) :
    (∀ e : String,
      (sql_query_units s zona tipo_propiedad min_precio max_precio habitaciones limit
          (.error e)).1 =
        (generate_fallback_properties zona tipo_propiedad max_precio habitaciones 2).map
          PropEntry.fromFallback) ∧
    (sql_query_units s zona tipo_propiedad min_precio max_precio habitaciones limit
        (.ok [])).1 =
      (generate_fallback_properties zona tipo_propiedad max_precio habitaciones 2).map
        PropEntry.fromFallback ∧
    (generate_fallback_properties zona tipo_propiedad max_precio habitaciones 2).length = 2 :=
  ⟨fun _ => rfl, rfl, by simp [generate_fallback_properties]⟩

/-- C10: every CRM payload constructed by `register_prelead`, `register_lead`
and `enrich_lead` carries `consentimiento = SI`, for every state (in
particular whatever `consent_obtained` is) and every input: no code path ever
sends `consentimiento = NO` to the CRM. -/
theorem C10_consent_always_SI :
    (∀ (s : AgentState) (nombre telefono tipo_inmueble zona metraje proyecto_id : String)
       (crmNew : Except String String) (now : String) (c : CrmCall),
      c ∈ (register_prelead s nombre telefono tipo_inmueble zona metraje proyecto_id
        crmNew now).calls → crmConsent c = YesNo.SI) ∧
    (∀ (s : AgentState) (email habitaciones presupuesto tiempo_compra tiempo_busqueda : String)
       (tipo_documento numero_documento : Option String)
       (crmUpd : Except String Bool) (now : String) (c : CrmCall),
      c ∈ (register_lead s email habitaciones presupuesto tiempo_compra tiempo_busqueda
        tipo_documento numero_documento crmUpd now).calls → crmConsent c = YesNo.SI) ∧
    (∀ (s : AgentState) (credito_preaprobado cuota_inicial proposito : String)
       (crmEnr : Except String Bool) (now : String) (c : CrmCall),
      c ∈ (enrich_lead s credito_preaprobado cuota_inicial proposito crmEnr now).calls →
        crmConsent c = YesNo.SI) :=
  ⟨fun s a b t z m cr n c hc => register_prelead_calls_SI s a b t z m cr n c hc,
   fun s a hb pr tc tb td nd cr n c hc =>
     register_lead_calls_SI s a hb pr tc tb td nd cr n c hc,
   fun s cp ci pp cr n c hc => enrich_lead_calls_SI s cp ci pp cr n c hc⟩

/-- C10 witness: a successful `register_prelead` on a state with
`consent_obtained = false` sends exactly one CRM payload, and its
`consentimiento` is `SI`. -/
theorem C10_witness :
    crmConsent (CrmCall.registerPrelead
      ⟨⟨"Juan", "+51987654321", none⟩, "1", YesNo.SI, "WEB001", "1", "1"⟩) = YesNo.SI :=
  C10_consent_always_SI.1 sNoMessages "Juan" "+51987654321" "1" "1" "1" "WEB001" (.ok "L1")
    "T" _ (by decide)

end Inmobilia
